import Mathlib

/-!
Verification of the pagination-aggregator and playback-monitor core of the
spotify-mcp server, as a shallow embedding of the Python source
(`src/spotify_mcp/fastmcp_server.py` and `src/spotify_mcp/server.py`)
into Lean.  Dictionaries with optional keys are modelled as structures of
`Option` fields (a Python `dict.get` returning `None` for a missing key or
a stored `None` value becomes `Option.none`), Python exceptions become
`Except`, and the unbounded `while` loops become fuel-indexed recursion:
a result of `Except.ok none` means the loop is still running after the
given number of iterations (fuel exhausted), so termination statements
say that the result is never `Except.ok none` for a sufficiently large
fuel, and non-termination statements exhibit fuels beyond every safety
ceiling for which the loop is still running.
-/

namespace SpotifyMCP

/-- A playback snapshot as retained by the monitor in `server.py`
(`monitor_playback_state` builds `current_state` with these seven keys;
`_has_significant_change` reads them with `dict.get`, so a missing key and
a stored `None` are both `none` here). -/
structure PlaybackState where
  is_playing : Option Bool
  track_id : Option String
  progress_ms : Option Nat
  device_name : Option String
  shuffle_state : Option Bool
  repeat_state : Option String
  volume_percent : Option Nat
deriving DecidableEq, Repr

/-- Embedding of `_has_significant_change(old_state, new_state)` from
`server.py`: an ordered short-circuit OR over the seven rules; the numeric
fields are read with a Python `or 0`, i.e. a missing value counts as `0`. -/
def has_significant_change (old_state new_state : PlaybackState) : Bool :=
  if old_state.is_playing ≠ new_state.is_playing then true
  else if old_state.track_id ≠ new_state.track_id then true
  else if old_state.device_name ≠ new_state.device_name then true
  else if old_state.shuffle_state ≠ new_state.shuffle_state then true
  else if old_state.repeat_state ≠ new_state.repeat_state then true
  else if ((old_state.volume_percent.getD 0 : Int) - (new_state.volume_percent.getD 0 : Int)).natAbs > 5 then true
  else if ((old_state.progress_ms.getD 0 : Int) - (new_state.progress_ms.getD 0 : Int)).natAbs > 10000 then true
  else false

/-- The monitor's notification decision in `monitor_playback_state`:
`_last_playback_state is None or _has_significant_change(_last_playback_state, current_state)`. -/
def isSignificant : Option PlaybackState → PlaybackState → Bool
  | none, _ => true
  | some prev, cur => has_significant_change prev cur

/-- The comparable state built from a sample: an active session gives the
full snapshot; `current_playback` falsy gives the two-key dictionary
`\x7b"is_playing": False, "track_id": None\x7d`, whose other five keys are
absent. -/
def sampleToState : Option PlaybackState → PlaybackState
  | some s => s
  | none => ⟨some false, none, none, none, none, none, none⟩

/-- One tick of the `while True` body of `monitor_playback_state`.
Input: the retained `_last_playback_state`, the outcome of
`sp.current_playback()` (an exception or a possibly-absent session), and
whether `server.send_resource_updated` would succeed.  Output: the new
retained state, whether a notification send was attempted, and the sleep
(5 s normally, 10 s after a sampling error).  A sampling exception is
caught by the outer `except`: state unchanged, no notification; a send
failure is caught by the inner `except` and the retained state is still
updated afterwards. -/
def monitorTick (last : Option PlaybackState)
    (sample : Except Nat (Option PlaybackState)) (_notifyOk : Bool) :
    Option PlaybackState × Bool × Nat :=
  match sample with
  | .error _ => (last, false, 10)
  | .ok raw =>
    let current := sampleToState raw
    if isSignificant last current then
      (some current, true, 5)
    else (last, false, 5)

/-- Running the monitor loop over a finite list of tick inputs
(sample outcome and sink availability per tick): returns the final
retained snapshot and, per tick, whether a notification was attempted.
The loop body catches every exception, so the loop consumes every tick
and never exits by itself. -/
def monitorRun : List (Except Nat (Option PlaybackState) × Bool) →
    Option PlaybackState → Option PlaybackState × List Bool
  | [], last => (last, [])
  | (s, nOk) :: rest, last =>
    let r := monitorTick last s nOk
    let next := monitorRun rest r.1
    (next.1, r.2.1 :: next.2)

/-- The seven-rule disjunction, written out as the spec states it. -/
def sigRules (p c : PlaybackState) : Prop :=
  p.is_playing ≠ c.is_playing ∨
  p.track_id ≠ c.track_id ∨
  p.device_name ≠ c.device_name ∨
  p.shuffle_state ≠ c.shuffle_state ∨
  p.repeat_state ≠ c.repeat_state ∨
  5 < ((p.volume_percent.getD 0 : Int) - (c.volume_percent.getD 0 : Int)).natAbs ∨
  10000 < ((p.progress_ms.getD 0 : Int) - (c.progress_ms.getD 0 : Int)).natAbs

theorem has_significant_change_iff (p c : PlaybackState) :
    has_significant_change p c = true ↔ sigRules p c := by
  unfold has_significant_change sigRules
  split
  · simp_all
  · split
    · simp_all
    · split
      · simp_all
      · split
        · simp_all
        · split
          · simp_all
          · split
            · simp_all
            · split
              · simp_all
              · simp_all

theorem sigRules_comm (p c : PlaybackState) : sigRules p c ↔ sigRules c p := by
  have h1 : ∀ x y : Int, (x - y).natAbs = (y - x).natAbs := by omega
  unfold sigRules
  constructor <;> intro h <;>
    rcases h with h|h|h|h|h|h|h <;>
    first
    | exact Or.inl (Ne.symm h)
    | exact Or.inr (Or.inl (Ne.symm h))
    | exact Or.inr (Or.inr (Or.inl (Ne.symm h)))
    | exact Or.inr (Or.inr (Or.inr (Or.inl (Ne.symm h))))
    | exact Or.inr (Or.inr (Or.inr (Or.inr (Or.inl (Ne.symm h)))))
    | exact Or.inr (Or.inr (Or.inr (Or.inr (Or.inr (Or.inl (by rw [h1]; exact h))))))
    | exact Or.inr (Or.inr (Or.inr (Or.inr (Or.inr (Or.inr (by rw [h1]; exact h))))))

/-- Claim C4: for every pair of playback snapshots, `_has_significant_change`
returns true if and only if at least one of the seven rules holds:
`is_playing`, `track_id`, `device_name`, shuffle or repeat state differ, the
absolute volume difference exceeds 5, or the absolute progress difference
exceeds 10000, with a missing numeric value treated as 0. -/
theorem claim_C4_change_detector_iff_seven_rules :
    ∀ p c : PlaybackState, has_significant_change p c = true ↔ sigRules p c :=
  has_significant_change_iff

/-- Claim C10: the change detector is symmetric in its two snapshots and,
in particular, judges a snapshot against itself as not significant. -/
theorem claim_C10_change_detector_symmetric :
    ∀ a b : PlaybackState, has_significant_change a b = has_significant_change b a ∧
      has_significant_change a a = false := by
  intro a b
  constructor
  · rw [Bool.eq_iff_iff, has_significant_change_iff, has_significant_change_iff]
    exact sigRules_comm a b
  · simp [has_significant_change]

/-- Claim C5: the monitor's significance check is total over an absent
previous snapshot: with `previous = None` every current snapshot is judged
significant, and a successful first tick notifies and retains it. -/
theorem claim_C5_first_observation_notifies :
    ∀ cur : PlaybackState, isSignificant none cur = true ∧
      monitorTick none (.ok (some cur)) true = (some cur, true, 5) := by
  intro cur
  exact ⟨rfl, rfl⟩

/-- Concrete snapshot used to exercise the monitor on a non-significant tick. -/
def prevSnap : PlaybackState :=
  ⟨some true, some "A", some 1000, some "D", some false, some "off", some 50⟩

/-- The same snapshot with playback progressed by 500 ms, a change below
every threshold of the detector. -/
def curSnap : PlaybackState :=
  ⟨some true, some "A", some 1500, some "D", some false, some "off", some 50⟩

/-- Claim C6 counterexample: on a successful tick whose change is judged not
significant, the retained snapshot is NOT replaced by the freshly sampled
one; `_last_playback_state` is only assigned inside the significant branch
of `monitor_playback_state`. -/
theorem claim_C6_counterexample :
    has_significant_change prevSnap curSnap = false ∧
    (monitorTick (some prevSnap) (.ok (some curSnap)) true).1 = some prevSnap ∧
    decide (prevSnap = curSnap) = false := by
  refine ⟨by decide, by decide, by decide⟩

/-- Claim C6 amended: on a successful tick the retained snapshot is replaced
by the freshly sampled current state exactly when the previous snapshot was
absent or the change is judged significant; on a non-significant tick it is
left unchanged. -/
theorem claim_C6_update_exactly_when_significant :
    ∀ (last raw : Option PlaybackState) (nOk : Bool),
      (monitorTick last (.ok raw) nOk).1 =
        if isSignificant last (sampleToState raw) then some (sampleToState raw) else last := by
  intro last raw nOk
  by_cases h : isSignificant last (sampleToState raw) <;> simp [monitorTick, h]

/-- Claim C7: sampling errors leave the retained snapshot unchanged, emit no
notification, and do not terminate the loop: a run whose first ticks all
fail continues exactly as the run of the remaining ticks from the same
retained snapshot, with a false notification flag for each failing tick. -/
theorem claim_C7_monitor_survives_sampling_errors :
    ∀ (es : List Nat) (rest : List (Except Nat (Option PlaybackState) × Bool))
      (last : Option PlaybackState),
      monitorRun (es.map (fun e => (Except.error e, true)) ++ rest) last =
        ((monitorRun rest last).1, es.map (fun _ => false) ++ (monitorRun rest last).2) := by
  intro es rest last
  induction es with
  | nil => simp [monitorRun]
  | cons e es ih => simp [monitorRun, monitorTick, ih]

/-- One fetch call as observed by an aggregation loop: the offset and page
size passed to the backend and the number of items the response carried
(0 for a call that raised). -/
structure FetchCall where
  offset : Nat
  limit : Nat
  returned : Nat
deriving DecidableEq, Repr

/-- Response of `spotify_client.playlist_tracks` as read by
`get_playlist_tracks_paginated` in `fastmcp_server.py`: whether the result
is truthy, the raw `items` (each either a parsed track id or `none` for a
falsy item or one without a `track` key), and whether a `next` link is
present. -/
structure PTPage where
  present : Bool
  items : List (Option Nat)
  hasNext : Bool
deriving DecidableEq, Repr

/-- Computation of `batch_size = min(limit, 100) if limit else 100`
(Python truthiness: `None` and `0` both select the default 100). -/
def ptpBatchSize : Option Nat → Nat
  | some l => if l = 0 then 100 else min l 100
  | none => 100

/-- Computation of `batch_limit = min(batch_size, remaining) if remaining else batch_size`. -/
def ptpBatchLimit (batchSize : Nat) : Option Nat → Nat
  | some r => if r = 0 then batchSize else min batchSize r
  | none => batchSize

/-- The `while True` loop of `get_playlist_tracks_paginated`
(`fastmcp_server.py`), fuel-indexed.  Returns the loop outcome (an
exception, the accumulated tracks, or `ok none` when the fuel ran out with
the loop still going) together with the list of fetch calls performed. -/
def ptpAux (fetch : Nat → Nat → Except Nat PTPage) (batchSize : Nat) :
    Nat → List Nat → Nat → Option Nat → Except Nat (Option (List Nat)) × List FetchCall
  | 0, _tracks, _off, _rem => (.ok none, [])
  | fuel+1, tracks, currentOffset, remaining =>
    let batchLimit := ptpBatchLimit batchSize remaining
    match fetch currentOffset batchLimit with
    | .error e => (.error e, [⟨currentOffset, batchLimit, 0⟩])
    | .ok page =>
      let call : FetchCall := ⟨currentOffset, batchLimit, page.items.length⟩
      if page.present = false ∨ page.items = [] then (.ok (some tracks), [call])
      else
        let batchTracks := page.items.filterMap id
        let tracks2 := tracks ++ batchTracks
        let step : Option (Option Nat) :=
          match remaining with
          | some r =>
            if r = 0 then some remaining
            else if r ≤ batchTracks.length then none
            else some (some (r - batchTracks.length))
          | none => some none
        match step with
        | none => (.ok (some tracks2), [call])
        | some remaining2 =>
          if page.items.length < batchLimit ∨ page.hasNext = false then (.ok (some tracks2), [call])
          else
            let off2 := currentOffset + page.items.length
            if 10000 < off2 then (.ok (some tracks2), [call])
            else
              let r := ptpAux fetch batchSize fuel tracks2 off2 remaining2
              (r.1, call :: r.2)

/-- Embedding of `get_playlist_tracks_paginated(playlist_id, limit, offset)`
from `fastmcp_server.py`: starts the loop with an empty accumulator,
`current_offset = offset`, `remaining = limit`. -/
def get_playlist_tracks_paginated (fetch : Nat → Nat → Except Nat PTPage)
    (fuel : Nat) (limit : Option Nat) (offset : Nat) :
    Except Nat (Option (List Nat)) × List FetchCall :=
  ptpAux fetch (ptpBatchSize limit) fuel [] offset limit

/-- Response of `sp.search` as read by the `PaginatedSearch` loop in
`server.py`: whether the `f"qtypes"` key is present, its `items` and
`total`. -/
structure SearchPage where
  hasKey : Bool
  items : List Nat
  total : Nat
deriving DecidableEq, Repr

/-- Accumulator dictionary of the two `server.py` aggregation loops:
`\x7b"items": [...], "total": ..., "pages_fetched": ...\x7d`. -/
structure AggAcc where
  items : List Nat
  total : Nat
  pagesFetched : Nat
deriving DecidableEq, Repr

/-- The `get_all_pages` loop of the `PaginatedSearch` tool in `server.py`,
fuel-indexed, with its fetch-call log. -/
def psAux (fetch : Nat → Nat → Except Nat SearchPage) (limit maxResults : Nat) :
    Nat → AggAcc → Nat → Except Nat (Option AggAcc) × List FetchCall
  | 0, _acc, _off => (.ok none, [])
  | fuel+1, acc, currentOffset =>
    if acc.items.length < maxResults then
      match fetch currentOffset limit with
      | .error e => (.error e, [⟨currentOffset, limit, 0⟩])
      | .ok page =>
        if page.hasKey = false then (.ok (some acc), [⟨currentOffset, limit, 0⟩])
        else
          let call : FetchCall := ⟨currentOffset, limit, page.items.length⟩
          if page.items = [] then (.ok (some acc), [call])
          else
            let acc2 : AggAcc := ⟨acc.items ++ page.items, page.total, acc.pagesFetched + 1⟩
            let off2 := currentOffset + limit
            if page.items.length < limit ∨ page.total ≤ off2 then (.ok (some acc2), [call])
            else
              let r := psAux fetch limit maxResults fuel acc2 off2
              (r.1, call :: r.2)
    else (.ok (some acc), [])

/-- Values of the JSON object returned by the `PaginatedSearch` tool. -/
inductive JVal
  | arr : List Nat → JVal
  | num : Nat → JVal
deriving DecidableEq, Repr

/-- The final `all_results` dictionary assembled by `PaginatedSearch` after
the loop: items trimmed with `[:max_results]` and a `returned_items` count;
these four keys are the whole object. -/
def paginatedSearchFields (acc : AggAcc) (maxResults : Nat) : List (String × JVal) :=
  let finalItems := acc.items.take maxResults
  [("items", .arr finalItems), ("total", .num acc.total),
   ("pages_fetched", .num acc.pagesFetched), ("returned_items", .num finalItems.length)]

/-- Response of `sp.playlist_items` as read by the `PlaylistPagination`
loop in `server.py`. -/
structure PlPage where
  items : List Nat
  total : Nat
deriving DecidableEq, Repr

/-- The `get_all_tracks` loop of the `PlaylistPagination` tool in
`server.py`, fuel-indexed, with its fetch-call log.  Note the loop has no
page-count or offset ceiling: it stops only on an empty page, a short
page, or `current_offset >= total`. -/
def plpAux (fetch : Nat → Nat → Except Nat PlPage) (limit : Nat) :
    Nat → AggAcc → Nat → Except Nat (Option AggAcc) × List FetchCall
  | 0, _acc, _off => (.ok none, [])
  | fuel+1, acc, currentOffset =>
    match fetch currentOffset limit with
    | .error e => (.error e, [⟨currentOffset, limit, 0⟩])
    | .ok page =>
      let call : FetchCall := ⟨currentOffset, limit, page.items.length⟩
      if page.items = [] then (.ok (some acc), [call])
      else
        let acc2 : AggAcc := ⟨acc.items ++ page.items, page.total, acc.pagesFetched + 1⟩
        let off2 := currentOffset + limit
        if page.items.length < limit ∨ page.total ≤ off2 then (.ok (some acc2), [call])
        else
          let r := plpAux fetch limit fuel acc2 off2
          (r.1, call :: r.2)

/-- A loop outcome counts as returned unless the fuel ran out with the
loop still running. -/
def returned {α : Type} : Except Nat (Option α) → Bool
  | .ok none => false
  | .ok (some _) => true
  | .error _ => true

/-- Offset discipline of a fetch-call log: each call's offset equals the
given start offset plus the item counts returned by the calls before it. -/
def goodLogB : Nat → List FetchCall → Bool
  | _, [] => true
  | s, c :: rest => (c.offset == s) && goodLogB (s + c.returned) rest

theorem ptpAux_log_length_le (fetch : Nat → Nat → Except Nat PTPage) (batchSize : Nat) :
    ∀ (fuel : Nat) (tracks : List Nat) (off : Nat) (rem : Option Nat),
      (ptpAux fetch batchSize fuel tracks off rem).2.length ≤ fuel := by
  intro fuel
  induction fuel with
  | zero => intro tracks off rem; simp [ptpAux]
  | succ n ih =>
    intro tracks off rem
    simp only [ptpAux]
    split
    · simp
    · split
      · simp
      · split
        · simp
        · split
          · simp
          · split
            · simp
            · simp only [List.length_cons]
              exact Nat.succ_le_succ (ih _ _ _)

theorem ptpAux_returns (fetch : Nat → Nat → Except Nat PTPage) (batchSize : Nat) :
    ∀ (fuel : Nat) (tracks : List Nat) (off : Nat) (rem : Option Nat), 10001 - off < fuel →
      returned (ptpAux fetch batchSize fuel tracks off rem).1 = true := by
  intro fuel
  induction fuel with
  | zero => intro tracks off rem h; omega
  | succ n ih =>
    intro tracks off rem h
    simp only [ptpAux]
    split
    · simp [returned]
    · split
      · simp [returned]
      · rename_i page _ hne
        split
        · simp [returned]
        · split
          · simp [returned]
          · split
            · simp [returned]
            · rename_i hoff
              have hlen : page.items ≠ [] := by
                intro hnil
                exact hne (Or.inr hnil)
              have hpos : 0 < page.items.length := List.length_pos.mpr hlen
              exact ih _ _ _ (by omega)

/-- A misbehaving backend for the `PlaylistPagination` loop: every request
is answered with a full page of fresh items and a total just beyond the
next offset, so the loop's stop conditions never fire. -/
def advPlFetch : Nat → Nat → Except Nat PlPage :=
  fun off limit => .ok ⟨(List.range limit).map (fun i => off + i), off + limit + 1⟩

theorem advPlFetch_never_returns :
    ∀ (fuel : Nat) (acc : AggAcc) (off : Nat),
      (plpAux advPlFetch 50 fuel acc off).1 = .ok none ∧
      (plpAux advPlFetch 50 fuel acc off).2.length = fuel := by
  intro fuel
  induction fuel with
  | zero => intro acc off; exact ⟨rfl, rfl⟩
  | succ n ih =>
    intro acc off
    simp only [plpAux, advPlFetch]
    have h1 : ((List.range 50).map (fun i => off + i)) ≠ [] := by
      simp [List.map_eq_nil_iff]
    have h2 : ((List.range 50).map (fun i => off + i)).length = 50 := by simp
    simp only [h1, if_false, h2]
    have h3 : ¬ (50 < 50 ∨ off + 50 + 1 ≤ off + 50) := by omega
    simp only [if_neg h3]
    refine ⟨(ih _ _).1, ?_⟩
    simp [(ih _ _).2]

/-- Claim C1 (amended): `get_playlist_tracks_paginated` in
`fastmcp_server.py` returns within 10002 fetch calls for every Page
Fetcher stub, its `current_offset > 10000` safety check bounding the
loop; but the `get_all_tracks` loop of the `PlaylistPagination` tool in
`server.py` has no such ceiling: against a backend that always returns a
full page and a growing total it is still running after any number of
fetch calls. -/
theorem claim_C1_fastmcp_bounded_playlist_loop_unbounded :
    (∀ (fetch : Nat → Nat → Except Nat PTPage) (limit : Option Nat) (offset : Nat),
      returned (get_playlist_tracks_paginated fetch 10002 limit offset).1 = true ∧
      (get_playlist_tracks_paginated fetch 10002 limit offset).2.length ≤ 10002) ∧
    (∀ (fuel : Nat), (plpAux advPlFetch 50 fuel ⟨[], 0, 0⟩ 0).1 = .ok none) := by
  constructor
  · intro fetch limit offset
    exact ⟨ptpAux_returns fetch (ptpBatchSize limit) 10002 [] offset limit (by omega),
      ptpAux_log_length_le fetch (ptpBatchSize limit) 10002 [] offset limit⟩
  · intro fuel
    exact (advPlFetch_never_returns fuel _ _).1

/-- Claim C1 counterexample: the `get_all_tracks` loop of
`PlaylistPagination`, driven by a backend that always returns a full page
of 50 items with a growing total, has performed 10001 fetch calls — past
any 10,000-item safety ceiling — and is still running. -/
theorem claim_C1_counterexample :
    (plpAux advPlFetch 50 10001 ⟨[], 0, 0⟩ 0).1 = .ok none ∧
    (plpAux advPlFetch 50 10001 ⟨[], 0, 0⟩ 0).2.length = 10001 :=
  advPlFetch_never_returns 10001 ⟨[], 0, 0⟩ 0

theorem ptpAux_goodLog (fetch : Nat → Nat → Except Nat PTPage) (batchSize : Nat) :
    ∀ (fuel : Nat) (tracks : List Nat) (off : Nat) (rem : Option Nat),
      goodLogB off (ptpAux fetch batchSize fuel tracks off rem).2 = true := by
  intro fuel
  induction fuel with
  | zero => intro tracks off rem; rfl
  | succ n ih =>
    intro tracks off rem
    simp only [ptpAux]
    split
    · simp [goodLogB]
    · split
      · simp [goodLogB]
      · split
        · simp [goodLogB]
        · split
          · simp [goodLogB]
          · split
            · simp [goodLogB]
            · simp only [goodLogB]
              simp only [beq_self_eq_true, Bool.true_and]
              exact ih _ _ _

theorem psAux_goodLog (fetch : Nat → Nat → Except Nat SearchPage) (limit maxResults : Nat)
    (hb : ∀ o l p, fetch o l = .ok p → p.items.length ≤ l) :
    ∀ (fuel : Nat) (acc : AggAcc) (off : Nat),
      goodLogB off (psAux fetch limit maxResults fuel acc off).2 = true := by
  intro fuel
  induction fuel with
  | zero => intro acc off; rfl
  | succ n ih =>
    intro acc off
    simp only [psAux]
    split
    · split
      · simp [goodLogB]
      · rename_i page hf
        split
        · simp [goodLogB]
        · split
          · simp [goodLogB]
          · split
            · simp [goodLogB]
            · rename_i hcont
              have hle : page.items.length ≤ limit := hb _ _ _ hf
              have hlen : page.items.length = limit := by omega
              simp only [goodLogB, beq_self_eq_true, Bool.true_and]
              rw [hlen]
              exact ih _ _
    · rfl

theorem plpAux_goodLog (fetch : Nat → Nat → Except Nat PlPage) (limit : Nat)
    (hb : ∀ o l p, fetch o l = .ok p → p.items.length ≤ l) :
    ∀ (fuel : Nat) (acc : AggAcc) (off : Nat),
      goodLogB off (plpAux fetch limit fuel acc off).2 = true := by
  intro fuel
  induction fuel with
  | zero => intro acc off; rfl
  | succ n ih =>
    intro acc off
    simp only [plpAux]
    split
    · simp [goodLogB]
    · rename_i page hf
      split
      · simp [goodLogB]
      · split
        · simp [goodLogB]
        · rename_i hcont
          have hle : page.items.length ≤ limit := hb _ _ _ hf
          have hlen : page.items.length = limit := by omega
          simp only [goodLogB, beq_self_eq_true, Bool.true_and]
          rw [hlen]
          exact ih _ _

/-- Claim C2: in every multi-page aggregation — the fastmcp playlist loop,
the `PaginatedSearch` loop and the `PlaylistPagination` loop — the offset
passed to each fetch call equals the start offset plus the running sum of
the item counts actually returned by the previous calls (for the two
`server.py` loops this relies on the Page Fetcher contract that a page
never carries more items than requested, since they advance the offset by
the requested size but only continue after a full page). -/
theorem claim_C2_offsets_equal_running_sum_of_returned :
    (∀ (fetch : Nat → Nat → Except Nat PTPage) (batchSize fuel : Nat)
        (tracks : List Nat) (off : Nat) (rem : Option Nat),
        goodLogB off (ptpAux fetch batchSize fuel tracks off rem).2 = true) ∧
    (∀ (fetch : Nat → Nat → Except Nat SearchPage) (limit maxResults fuel : Nat)
        (acc : AggAcc) (off : Nat),
        (∀ o l p, fetch o l = .ok p → p.items.length ≤ l) →
        goodLogB off (psAux fetch limit maxResults fuel acc off).2 = true) ∧
    (∀ (fetch : Nat → Nat → Except Nat PlPage) (limit fuel : Nat)
        (acc : AggAcc) (off : Nat),
        (∀ o l p, fetch o l = .ok p → p.items.length ≤ l) →
        goodLogB off (plpAux fetch limit fuel acc off).2 = true) :=
  ⟨fun fetch bs fuel tracks off rem => ptpAux_goodLog fetch bs fuel tracks off rem,
   fun fetch limit maxR fuel acc off hb => psAux_goodLog fetch limit maxR hb fuel acc off,
   fun fetch limit fuel acc off hb => plpAux_goodLog fetch limit hb fuel acc off⟩

/-- An honest search backend over a fixed item list: pages are slices and
the reported total is the true length. -/
def searchBackend (L : List Nat) : Nat → Nat → Except Nat SearchPage :=
  fun off lim => .ok ⟨true, (L.drop off).take lim, L.length⟩

/-- An honest playlist backend over a fixed item list. -/
def plBackend (L : List Nat) : Nat → Nat → Except Nat PlPage :=
  fun off lim => .ok ⟨(L.drop off).take lim, L.length⟩

theorem searchBackend_bounded (L : List Nat) :
    ∀ o l p, searchBackend L o l = .ok p → p.items.length ≤ l := by
  intro o l p h
  simp only [searchBackend, Except.ok.injEq] at h
  subst h
  simp [List.length_take]

theorem plBackend_bounded (L : List Nat) :
    ∀ o l p, plBackend L o l = .ok p → p.items.length ≤ l := by
  intro o l p h
  simp only [plBackend, Except.ok.injEq] at h
  subst h
  simp [List.length_take]

/-- An honest fastmcp playlist backend over a fixed item list, every item
carrying a track. -/
def ptBackend (L : List Nat) : Nat → Nat → Except Nat PTPage :=
  fun off lim => .ok ⟨true, ((L.drop off).take lim).map some, true⟩

theorem claim_C2_witness :
    goodLogB 0 (ptpAux (ptBackend (List.range 250)) 100 5 [] 0 none).2 = true ∧
    goodLogB 0 (psAux (searchBackend (List.range 7)) 3 5 4 ⟨[], 0, 0⟩ 0).2 = true ∧
    goodLogB 0 (plpAux (plBackend (List.range 7)) 3 4 ⟨[], 0, 0⟩ 0).2 = true :=
  ⟨claim_C2_offsets_equal_running_sum_of_returned.1 (ptBackend (List.range 250)) 100 5 [] 0 none,
   claim_C2_offsets_equal_running_sum_of_returned.2.1 (searchBackend (List.range 7)) 3 5 4
     ⟨[], 0, 0⟩ 0 (searchBackend_bounded (List.range 7)),
   claim_C2_offsets_equal_running_sum_of_returned.2.2 (plBackend (List.range 7)) 3 4
     ⟨[], 0, 0⟩ 0 (plBackend_bounded (List.range 7))⟩

theorem psAux_searchBackend_complete (L : List Nat) (lim maxR : Nat) (hlim : 1 ≤ lim) :
    ∀ (fuel : Nat) (acc : AggAcc) (off : Nat),
      acc.items.length = off → off ≤ L.length → maxR - acc.items.length < fuel →
      ∃ acc2, (psAux (searchBackend L) lim maxR fuel acc off).1 = .ok (some acc2) ∧
        (maxR ≤ acc2.items.length ∨ acc2.items.length = L.length) := by
  intro fuel
  induction fuel with
  | zero => intro acc off hlen hoff hfuel; omega
  | succ n ih =>
    intro acc off hlen hoff hfuel
    simp only [psAux, searchBackend]
    split
    · rename_i hguard
      have hplen : ((L.drop off).take lim).length = min lim (L.length - off) := by
        simp [List.length_take, List.length_drop]
      split
      · rename_i hkey
        exact absurd hkey (by decide)
      · rename_i hkey
        split
        · rename_i hemp
          have h0 : ((L.drop off).take lim).length = 0 := by rw [hemp]; rfl
          refine ⟨acc, rfl, Or.inr ?_⟩
          omega
        · rename_i hne
          split
          · rename_i hbr
            refine ⟨⟨acc.items ++ (L.drop off).take lim, L.length, acc.pagesFetched + 1⟩,
              rfl, ?_⟩
            simp only [List.length_append]
            omega
          · rename_i hbr
            have hcont := not_or.mp hbr
            obtain ⟨acc3, hr, hd⟩ := ih ⟨acc.items ++ (L.drop off).take lim, L.length,
              acc.pagesFetched + 1⟩ (off + lim) (by simp only [List.length_append]; omega)
              (by omega) (by simp only [List.length_append]; omega)
            exact ⟨acc3, hr, hd⟩
    · rename_i hguard
      exact ⟨acc, rfl, Or.inl (by omega)⟩

/-- Claim C3 counterexample: with a backend of 3 items and
`max_results = 2`, `PaginatedSearch` returns exactly 2 items, but the
result object consists of the keys `items`, `total`, `pages_fetched` and
`returned_items` only — there is no `truncated` field to be set. -/
theorem claim_C3_counterexample :
    (psAux (searchBackend [10, 11, 12]) 2 2 5 ⟨[], 0, 0⟩ 0).1 = .ok (some ⟨[10, 11], 3, 1⟩) ∧
    paginatedSearchFields ⟨[10, 11], 3, 1⟩ 2 =
      [("items", .arr [10, 11]), ("total", .num 3),
       ("pages_fetched", .num 1), ("returned_items", .num 2)] ∧
    (paginatedSearchFields ⟨[10, 11], 3, 1⟩ 2).lookup "truncated" = none := by
  refine ⟨by rfl, by decide, by decide⟩

/-- Claim C3 (amended): for every backend holding `N > max_results` items,
the `PaginatedSearch` aggregation returns exactly `max_results` items and
reports `returned_items = max_results`; the result carries no `truncated`
field (the code never produces one). -/
theorem claim_C3_truncation_without_truncated_field :
    ∀ (L : List Nat) (maxR lim : Nat), 1 ≤ lim → maxR < L.length →
      ∃ acc2, (psAux (searchBackend L) lim maxR (maxR + 1) ⟨[], 0, 0⟩ 0).1 = .ok (some acc2) ∧
        (acc2.items.take maxR).length = maxR ∧
        (paginatedSearchFields acc2 maxR).lookup "returned_items" = some (.num maxR) ∧
        (paginatedSearchFields acc2 maxR).lookup "truncated" = none := by
  intro L maxR lim hlim hN
  obtain ⟨acc2, hr, hd⟩ := psAux_searchBackend_complete L lim maxR hlim (maxR + 1)
    ⟨[], 0, 0⟩ 0 rfl (by omega) (by simp)
  have hge : maxR ≤ acc2.items.length := by rcases hd with h | h <;> omega
  have hlen : (acc2.items.take maxR).length = maxR := by
    simp only [List.length_take]
    omega
  refine ⟨acc2, hr, hlen, ?_, ?_⟩
  · simp [paginatedSearchFields, List.lookup, hlen]
  · simp [paginatedSearchFields, List.lookup]

theorem claim_C3_witness :
    (1 ≤ 2 ∧ 2 < (List.range 3).length) ∧
    (∃ acc2, (psAux (searchBackend (List.range 3)) 2 2 3 ⟨[], 0, 0⟩ 0).1 = .ok (some acc2) ∧
      (acc2.items.take 2).length = 2 ∧
      (paginatedSearchFields acc2 2).lookup "returned_items" = some (.num 2) ∧
      (paginatedSearchFields acc2 2).lookup "truncated" = none) :=
  ⟨⟨by decide, by decide⟩,
   claim_C3_truncation_without_truncated_field (List.range 3) 2 2 (by decide) (by decide)⟩

theorem ptpAux_error (fetch : Nat → Nat → Except Nat PTPage) (batchSize : Nat) :
    ∀ (fuel : Nat) (tracks : List Nat) (off : Nat) (rem : Option Nat) (e : Nat),
      (ptpAux fetch batchSize fuel tracks off rem).1 = .error e →
      ∃ pre c, (ptpAux fetch batchSize fuel tracks off rem).2 = pre ++ [c] ∧
        fetch c.offset c.limit = .error e ∧
        ∀ d ∈ pre, ∃ p, fetch d.offset d.limit = .ok p := by
  intro fuel
  induction fuel with
  | zero => intro tracks off rem e h; simp [ptpAux] at h
  | succ n ih =>
    intro tracks off rem e
    generalize hg : ptpAux fetch batchSize (n + 1) tracks off rem = res
    simp only [ptpAux] at hg
    intro h
    split at hg
    · rename_i e0 hf
      subst hg
      simp only [Except.error.injEq] at h
      subst h
      exact ⟨[], ⟨off, ptpBatchLimit batchSize rem, 0⟩, rfl, hf, by simp⟩
    · rename_i page hf
      split at hg
      · subst hg
        simp at h
      · split at hg
        · subst hg
          simp at h
        · rename_i rem2 hstep
          split at hg
          · subst hg
            simp at h
          · split at hg
            · subst hg
              simp at h
            · subst hg
              simp only at h
              obtain ⟨pre, c, hlog, hc, hpre⟩ := ih _ _ _ _ h
              refine ⟨⟨off, ptpBatchLimit batchSize rem, page.items.length⟩ :: pre, c, ?_, hc, ?_⟩
              · simp only [List.cons_append, List.cons.injEq, true_and]
                exact hlog
              · intro d hd
                rcases List.mem_cons.mp hd with hd | hd
                · exact ⟨page, by rw [hd]; exact hf⟩
                · exact hpre d hd

/-- Claim C8: a fetch error at any tick of the fastmcp playlist aggregation
aborts the call at once — the failing call is the last one performed, all
earlier calls had succeeded — and the error is propagated to the caller
unchanged; the result is the bare error, so none of the items accumulated
before the failure are returned. -/
theorem claim_C8_fetch_error_aborts_unchanged :
    ∀ (fetch : Nat → Nat → Except Nat PTPage) (fuel : Nat) (limit : Option Nat)
      (offset : Nat) (e : Nat),
      (get_playlist_tracks_paginated fetch fuel limit offset).1 = .error e →
      ∃ pre c, (get_playlist_tracks_paginated fetch fuel limit offset).2 = pre ++ [c] ∧
        fetch c.offset c.limit = .error e ∧
        ∀ d ∈ pre, ∃ p, fetch d.offset d.limit = .ok p :=
  fun fetch fuel limit offset e h =>
    ptpAux_error fetch (ptpBatchSize limit) fuel [] offset limit e h

/-- A backend whose first page is full and whose second request raises
error 7: used to exercise the abort-and-propagate path. -/
def errFetch : Nat → Nat → Except Nat PTPage :=
  fun off _ => if off = 0 then .ok ⟨true, (List.range 100).map some, true⟩ else .error 7

theorem claim_C8_witness :
    (get_playlist_tracks_paginated errFetch 5 none 0).1 = .error 7 ∧
    (∃ pre c, (get_playlist_tracks_paginated errFetch 5 none 0).2 = pre ++ [c] ∧
      errFetch c.offset c.limit = .error 7 ∧
      ∀ d ∈ pre, ∃ p, errFetch d.offset d.limit = .ok p) :=
  ⟨by rfl, claim_C8_fetch_error_aborts_unchanged errFetch 5 none 0 7 (by rfl)⟩

/-- The module-level monitor lifecycle of `server.py`: `handle` models what
`_notification_task` refers to (`none` before any start, otherwise the
task's done flag), and `liveLoops` counts the monitoring loops currently
running (a spawned loop runs until cancelled: its body catches every
exception). -/
structure NotifState where
  handle : Option Bool
  liveLoops : Nat
deriving DecidableEq, Repr

/-- The guard `_notification_task is None or _notification_task.done()`,
which is also the Stopped predicate of the lifecycle. -/
def taskDone (s : NotifState) : Bool :=
  match s.handle with
  | none => true
  | some d => d

/-- Embedding of `start_notifications`: spawn a fresh monitoring task only
when there is no live one. -/
def start_notifications (s : NotifState) : NotifState :=
  if taskDone s then { handle := some false, liveLoops := s.liveLoops + 1 } else s

/-- Embedding of `stop_notifications`: cancel and await the task only when
one is live; the cancelled task becomes done (the handle keeps pointing at
it). -/
def stop_notifications (s : NotifState) : NotifState :=
  match s.handle with
  | none => s
  | some d => if d then s else { handle := some true, liveLoops := s.liveLoops - 1 }

/-- Claim C9: from the initial state, two successive starts spawn exactly
one monitoring loop (the second is a no-op), a subsequent stop leaves the
lifecycle Stopped with no loop still running, and start and stop are
no-ops when already in their target state. -/
theorem claim_C9_monitor_lifecycle :
    (start_notifications (start_notifications ⟨none, 0⟩) = start_notifications ⟨none, 0⟩ ∧
     (start_notifications (start_notifications ⟨none, 0⟩)).liveLoops = 1 ∧
     (stop_notifications (start_notifications (start_notifications ⟨none, 0⟩))).liveLoops = 0 ∧
     taskDone (stop_notifications (start_notifications (start_notifications ⟨none, 0⟩))) = true) ∧
    (∀ s : NotifState, taskDone s = false → start_notifications s = s) ∧
    (∀ s : NotifState, taskDone s = true → stop_notifications s = s) := by
  refine ⟨by decide, ?_, ?_⟩
  · intro s h
    simp [start_notifications, h]
  · intro s h
    unfold stop_notifications
    cases hs : s.handle with
    | none => rfl
    | some d =>
      unfold taskDone at h
      rw [hs] at h
      have hd : d = true := h
      subst hd
      rfl

theorem claim_C9_witness :
    (taskDone ⟨some false, 1⟩ = false ∧
      start_notifications ⟨some false, 1⟩ = ⟨some false, 1⟩) ∧
    (taskDone ⟨some true, 0⟩ = true ∧
      stop_notifications ⟨some true, 0⟩ = ⟨some true, 0⟩) :=
  ⟨⟨by decide, claim_C9_monitor_lifecycle.2.1 ⟨some false, 1⟩ (by decide)⟩,
   ⟨by decide, claim_C9_monitor_lifecycle.2.2 ⟨some true, 0⟩ (by decide)⟩⟩

end SpotifyMCP
